import Mathlib

/-!
Shallow embedding of the tardis-python client (tardis_client / tardis_dev)
and proofs about the claims of its specification.

Machine integers are modelled as `Nat` with explicit reduction modulo 2^32
where the code (or the hash standard it invokes) works on 32-bit words.
Fallible Python code is modelled with `Except`/`Option`.
-/

namespace SHA256

/-- 2^32, the word modulus of SHA-256. -/
def M32 : Nat := 4294967296

/-- Rotate a 32-bit word (given as a `Nat` below 2^32) right by `n` bits. -/
def rotRight32 (n x : Nat) : Nat := ((x >>> n) + ((x % (2 ^ n)) <<< (32 - n))) % M32

/-- Addition modulo 2^32. -/
def add32 (a b : Nat) : Nat := (a + b) % M32

/-- Bitwise complement of a 32-bit word. -/
def complement32 (x : Nat) : Nat := x ^^^ 4294967295

/-- Choice function of the SHA-256 round: `(x ∧ y) ⊕ (¬x ∧ z)`. -/
def chooseFn (x y z : Nat) : Nat := (x &&& y) ^^^ (complement32 x &&& z)

/-- Majority function of the SHA-256 round. -/
def majorityFn (x y z : Nat) : Nat := (x &&& y) ^^^ (x &&& z) ^^^ (y &&& z)

/-- Big sigma-0 of FIPS 180-4. -/
def bigSigma0 (x : Nat) : Nat := rotRight32 2 x ^^^ rotRight32 13 x ^^^ rotRight32 22 x

/-- Big sigma-1 of FIPS 180-4. -/
def bigSigma1 (x : Nat) : Nat := rotRight32 6 x ^^^ rotRight32 11 x ^^^ rotRight32 25 x

/-- Small sigma-0 of FIPS 180-4. -/
def smallSigma0 (x : Nat) : Nat := rotRight32 7 x ^^^ rotRight32 18 x ^^^ (x >>> 3)

/-- Small sigma-1 of FIPS 180-4. -/
def smallSigma1 (x : Nat) : Nat := rotRight32 17 x ^^^ rotRight32 19 x ^^^ (x >>> 10)

/-- The 64 round constants of SHA-256 (FIPS 180-4 section 4.2.2), written in
decimal. -/
def K : Array Nat := #[
  1116352408, 1899447441, 3049323471, 3921009573, 961987163,
  1508970993, 2453635748, 2870763221, 3624381080, 310598401,
  607225278, 1426881987, 1925078388, 2162078206, 2614888103,
  3248222580, 3835390401, 4022224774, 264347078, 604807628,
  770255983, 1249150122, 1555081692, 1996064986, 2554220882,
  2821834349, 2952996808, 3210313671, 3336571891, 3584528711,
  113926993, 338241895, 666307205, 773529912, 1294757372,
  1396182291, 1695183700, 1986661051, 2177026350, 2456956037,
  2730485921, 2820302411, 3259730800, 3345764771, 3516065817,
  3600352804, 4094571909, 275423344, 430227734, 506948616,
  659060556, 883997877, 958139571, 1322822218, 1537002063,
  1747873779, 1955562222, 2024104815, 2227730452, 2361852424,
  2428436474, 2756734187, 3204031479, 3329325298]

/-- The initial hash value of SHA-256 (FIPS 180-4 section 5.3.3), in
decimal. -/
def H0 : Array Nat := #[
  1779033703, 3144134277, 1013904242, 2773480762, 1359893119,
  2600822924, 528734635, 1541459225]

/-- Big-endian 64-bit encoding of a natural number, as 8 bytes. -/
def be64 (n : Nat) : List Nat :=
  [n >>> 56 % 256, n >>> 48 % 256, n >>> 40 % 256, n >>> 32 % 256,
   n >>> 24 % 256, n >>> 16 % 256, n >>> 8 % 256, n % 256]

/-- SHA-256 message padding: append `0x80`, zero bytes up to 56 mod 64,
then the message bit length as 8 big-endian bytes. -/
def pad (msg : List Nat) : List Nat :=
  msg ++ [128] ++ List.replicate ((119 - msg.length % 64) % 64) 0 ++ be64 (8 * msg.length)

/-- Split a byte list into successive blocks of 64 bytes (fuel-driven
structural recursion; the fuel `l.length` always suffices). -/
def chunksAux : Nat → List Nat → List (List Nat)
  | 0, _ => []
  | _, [] => []
  | fuel + 1, l => l.take 64 :: chunksAux fuel (l.drop 64)

/-- Split a byte list into successive blocks of 64 bytes. -/
def chunks64 (l : List Nat) : List (List Nat) := chunksAux l.length l

/-- The `i`-th big-endian 32-bit word of a 64-byte block. -/
def word (bs : List Nat) (i : Nat) : Nat :=
  bs.getD (4 * i) 0 * 16777216 + bs.getD (4 * i + 1) 0 * 65536 +
    bs.getD (4 * i + 2) 0 * 256 + bs.getD (4 * i + 3) 0

/-- Extend the 16 message words of a block to the 64-entry message schedule. -/
def schedule (block : List Nat) : Array Nat :=
  (List.range 48).foldl
    (fun w i =>
      let t := 16 + i
      w.push (add32 (add32 (smallSigma1 (w.getD (t - 2) 0)) (w.getD (t - 7) 0))
        (add32 (smallSigma0 (w.getD (t - 15) 0)) (w.getD (t - 16) 0))))
    ((List.range 16).map (word block)).toArray

/-- Working state of the compression function. -/
structure Hs where
  a : Nat
  b : Nat
  c : Nat
  d : Nat
  e : Nat
  f : Nat
  g : Nat
  hh : Nat

/-- One round of the SHA-256 compression function. -/
def compressStep (w : Array Nat) (s : Hs) (t : Nat) : Hs :=
  let T1 := add32 s.hh (add32 (bigSigma1 s.e) (add32 (chooseFn s.e s.f s.g) (add32 (K.getD t 0) (w.getD t 0))))
  let T2 := add32 (bigSigma0 s.a) (majorityFn s.a s.b s.c)
  ⟨add32 T1 T2, s.a, s.b, s.c, add32 s.d T1, s.e, s.f, s.g⟩

/-- Process one 64-byte block, updating the 8-word hash value. -/
def processBlock (hv : Array Nat) (block : List Nat) : Array Nat :=
  let w := schedule block
  let s0 : Hs := ⟨hv.getD 0 0, hv.getD 1 0, hv.getD 2 0, hv.getD 3 0,
                  hv.getD 4 0, hv.getD 5 0, hv.getD 6 0, hv.getD 7 0⟩
  let s := (List.range 64).foldl (compressStep w) s0
  #[add32 (hv.getD 0 0) s.a, add32 (hv.getD 1 0) s.b, add32 (hv.getD 2 0) s.c,
    add32 (hv.getD 3 0) s.d, add32 (hv.getD 4 0) s.e, add32 (hv.getD 5 0) s.f,
    add32 (hv.getD 6 0) s.g, add32 (hv.getD 7 0) s.hh]

/-- SHA-256 of a byte list: the 8 words of the final hash value. -/
def sha256words (msg : List Nat) : Array Nat :=
  (chunks64 (pad msg)).foldl processBlock H0

/-- One lowercase hex digit. -/
def hexDigit (n : Nat) : Char :=
  if n < 10 then Char.ofNat (48 + n) else Char.ofNat (87 + n)

/-- A 32-bit word as 8 lowercase hex characters. -/
def hexWord (n : Nat) : List Char :=
  [hexDigit (n >>> 28 % 16), hexDigit (n >>> 24 % 16), hexDigit (n >>> 20 % 16),
   hexDigit (n >>> 16 % 16), hexDigit (n >>> 12 % 16), hexDigit (n >>> 8 % 16),
   hexDigit (n >>> 4 % 16), hexDigit (n % 16)]

/-- Lowercase hex digest of SHA-256 over a byte list. -/
def sha256hex (msg : List Nat) : String :=
  String.mk ((sha256words msg).toList.flatMap hexWord)

end SHA256

/-- UTF-8 bytes of an ASCII string (each scalar value below 128), as used by
`str.encode("utf-8")` on the ASCII serializations appearing in this client. -/
def asciiBytes (s : String) : List Nat := s.data.map Char.toNat

/-- Python exception values raised by the modelled code. -/
inductive PyErr where
  | typeError (msg : String)
  | valueError (msg : String)
  | keyError
  | indexError
  | unicodeDecodeError
  deriving Repr, DecidableEq

/-- `tardis_client.channel.Channel`: a frozen dataclass with fields `name`
and `symbols` (src/tardis_client/channel.py). -/
structure Channel where
  name : String
  symbols : List String
  deriving Repr, DecidableEq

/-- Stable insertion into a list sorted by `lt`: the new element goes before
the first element not strictly below it, so elements with equal keys keep
their original order, as in Python's stable `list.sort`. -/
def insertByLt {α : Type} (lt : α → α → Bool) (a : α) : List α → List α
  | [] => [a]
  | b :: rest => if lt b a then b :: insertByLt lt a rest else a :: b :: rest

/-- Stable insertion sort, modelling Python's stable `list.sort(key=...)`. -/
def sortByLt {α : Type} (lt : α → α → Bool) : List α → List α
  | [] => []
  | a :: rest => insertByLt lt a (sortByLt lt rest)

/-- `Channel.__post_init__` sorts `symbols` in place, so a constructed
`Channel` always carries its symbols sorted ascending. -/
def Channel.make (name : String) (symbols : List String) : Channel :=
  ⟨name, sortByLt (fun a b => decide (a < b)) symbols⟩

/-- `json.dumps(filters, separators=(",", ":"))` applied to a Python list of
`Channel` values (src/tardis_client/handy.py line 39).  The empty list
serializes to the two-character string `[]`; a non-empty list reaches its
first element, and a frozen-dataclass `Channel` is not JSON serializable, so
`json.dumps` raises `TypeError`. -/
def jsonDumpsChannels (fs : List Channel) : Except PyErr String :=
  match fs with
  | [] => .ok "[]"
  | _ => .error (.typeError "Object of type Channel is not JSON serializable")

/-- `get_filters_hash` (src/tardis_client/handy.py lines 11-44).  `None`
becomes the empty list; the list is sorted by channel name (Python's stable
sort); the sorted list is serialized with `json.dumps`; a SHA-256 digest of
the serialization is computed but discarded (line 42 evaluates
`hashlib.sha256(...).hexdigest()` without using the result, above a `# todo`
comment); the function then returns a hard-coded constant string. -/
def get_filters_hash (filters : Option (List Channel)) : Except PyErr String :=
  let fs := filters.getD []
  let fsSorted := sortByLt (fun a b => decide (a.name < b.name)) fs
  (jsonDumpsChannels fsSorted).map (fun filters_serialized =>
    let _discarded_digest := SHA256.sha256hex (asciiBytes filters_serialized)
    "07fdc31e2de738243f3c4980dc9b67b11e746eacc5f3da5818cc08b5cbc80ec2")

/-- `os.path.join` on relative POSIX components: joins with `/`. -/
def pathJoin (parts : List String) : String := String.intercalate "/" parts

/-- A Python `datetime.datetime` value (naive), as its seven fields. -/
structure DateTime where
  year : Nat
  month : Nat
  day : Nat
  hour : Nat
  minute : Nat
  second : Nat
  microsecond : Nat
  deriving Repr, DecidableEq

/-- `double_digit` (src/tardis_client/handy.py line 58): zero-pad below 10. -/
def double_digit (input : Nat) : String :=
  if input < 10 then "0" ++ toString input else toString input

/-- `format_date_to_path` (src/tardis_client/handy.py lines 47-54). -/
def format_date_to_path (date : DateTime) : String :=
  pathJoin [toString date.year, double_digit date.month, double_digit date.day,
    double_digit date.hour, double_digit date.minute]

/-- Parse exactly `n` decimal digits, accumulating into `acc`. -/
def parseDigitsAux : Nat → Nat → List Char → Option (Nat × List Char)
  | 0, acc, cs => some (acc, cs)
  | n + 1, acc, c :: cs =>
      if c.isDigit then parseDigitsAux n (10 * acc + (c.toNat - 48)) cs else none
  | _ + 1, _, [] => none

/-- Gregorian leap year, as in Python's `calendar`/`datetime`. -/
def isLeapYear (y : Nat) : Bool := y % 4 == 0 && (y % 100 != 0 || y % 400 == 0)

/-- Days in a month of a given year. -/
def daysInMonth (y m : Nat) : Nat :=
  if m == 2 then (if isLeapYear y then 29 else 28)
  else if m == 4 || m == 6 || m == 9 || m == 11 then 30 else 31

/-- `datetime.fromisoformat` (Python 3.7-3.10 grammar): `YYYY-MM-DD`,
optionally followed by one separator character and `HH:MM[:SS[.fff|.ffffff]]`,
with calendar range validation as in the `datetime` constructor.  Timezone
suffixes are not modelled (the client is used with naive timestamps). -/
def fromisoformat (s : String) : Option DateTime := do
  let (y, r1) ← parseDigitsAux 4 0 s.data
  match r1 with
  | '-' :: r2 =>
    let (mo, r3) ← parseDigitsAux 2 0 r2
    match r3 with
    | '-' :: r4 =>
      let (d, r5) ← parseDigitsAux 2 0 r4
      let hmsu ← match r5 with
        | [] => some (0, 0, 0, 0)
        | _sep :: r6 => do
          let (hh, r7) ← parseDigitsAux 2 0 r6
          (match r7 with
          | ':' :: r8 => do
            let (mi, r9) ← parseDigitsAux 2 0 r8
            (match r9 with
            | [] => some (hh, mi, 0, 0)
            | ':' :: r10 => do
              let (ss, r11) ← parseDigitsAux 2 0 r10
              (match r11 with
              | [] => some (hh, mi, ss, 0)
              | '.' :: r12 =>
                if r12.dropWhile Char.isDigit ≠ [] then none
                else if (r12.takeWhile Char.isDigit).length = 3 then do
                  let (us3, _) ← parseDigitsAux 3 0 r12
                  some (hh, mi, ss, us3 * 1000)
                else if (r12.takeWhile Char.isDigit).length = 6 then do
                  let (us6, _) ← parseDigitsAux 6 0 r12
                  some (hh, mi, ss, us6)
                else none
              | _ => none)
            | _ => none)
          | _ => none)
      let (hh, mi, ss, us) := hmsu
      if 1 ≤ mo ∧ mo ≤ 12 ∧ 1 ≤ d ∧ d ≤ daysInMonth y mo ∧ hh < 24 ∧ mi < 60 ∧ ss < 60 then
        some ⟨y, mo, d, hh, mi, ss, us⟩
      else none
    | _ => none
  | _ => none

/-- Radix encoding of a datetime.  On calendar-valid fields (as produced by
`fromisoformat`) comparing keys agrees with Python's field-lexicographic
`datetime` comparison. -/
def DateTime.key (d : DateTime) : Nat :=
  ((((d.year * 13 + d.month) * 32 + d.day) * 24 + d.hour) * 60 + d.minute) * 60000000
    + d.second * 1000000 + d.microsecond

/-- A Python value appearing in a filter's `symbols` list: a `str`, or some
object that is not a string. -/
inductive PySym where
  | str (s : String)
  | nonStr
  deriving Repr, DecidableEq

/-- A filter as inspected by `_validate_payload`: it reads only `.symbols`,
which is `None` or a Python list whose members may or may not be strings. -/
structure PyFilter where
  name : String
  symbols : Option (List PySym)
  deriving Repr, DecidableEq

/-- `EXCHANGES` (src/tardis_client/consts.py lines 1-36).  This constant is
imported nowhere in the package. -/
def EXCHANGES : List String := [
  "bitmex", "deribit", "binance-futures", "binance-delivery", "binance", "ftx",
  "okex-futures", "okex-options", "okex-swap", "okex", "huobi-dm", "huobi-dm-swap",
  "huobi", "bitfinex-derivatives", "bitfinex", "coinbase", "cryptofacilities",
  "kraken", "bitstamp", "gemini", "poloniex", "bybit", "phemex", "delta", "ftx-us",
  "binance-us", "gate-io-futures", "gate-io", "okcoin", "bitflyer", "hitbtc",
  "coinflex", "binance-jersey", "binance-dex"]

/-- `TardisClient._validate_payload` (src/tardis_client/tardis_client.py lines
158-194), translated clause by clause: `from_date` must be non-`None` and
ISO-parseable, likewise `to_date`; then `from_date >= to_date` is rejected;
then `filters`, when a list, has each member's optional `symbols` checked to
be a list of strings.  The `exchange` argument is received but never
inspected: the body contains no venue-membership check (and `EXCHANGES` is
not referenced).  A non-list `filters` value (rejected by the
`isinstance(filters, list)` clause) lies outside this typed model. -/
def validate_payload (exchange : String) (from_date to_date : Option String)
    (filters : Option (List PyFilter)) : Except PyErr Unit := do
  let _ := exchange
  let fd ← match from_date.bind fromisoformat with
    | some d => pure d
    | none => Except.error (.valueError "Invalid from_date argument. Please provide valid ISO date string.")
  let td ← match to_date.bind fromisoformat with
    | some d => pure d
    | none => Except.error (.valueError "Invalid to_date argument. Please provide valid ISO date string.")
  if fd.key ≥ td.key then
    Except.error (.valueError "Please provide to_date date string that is later than from_date.")
  else
    match filters with
    | none => pure ()
    | some fs => fs.forM (fun filt =>
        match filt.symbols with
        | none => pure ()
        | some syms =>
          if syms.any (fun sym => match sym with | .nonStr => true | .str _ => false) then
            Except.error (.valueError "Invalid symbols[] argument. Please provide list of symbol strings.")
          else pure ())

/-- The positional parameters of `fetch_data_to_replay` as defined in
src/tardis_client/data_downloader.py line 44 (nine parameters, none with a
default); this is the `fetch_data_to_replay` that
src/tardis_client/tardis_client.py imports on line 16. -/
def fetch_data_to_replay_params : List String :=
  ["exchange", "from_date", "to_date", "filters", "endpoint", "cache_dir",
   "api_key", "http_timeout", "http_proxy"]

/-- Python positional-argument binding for a function without defaults or
keyword arguments: a call whose argument count differs from the parameter
count raises `TypeError` at the call site. -/
def bindPositional {α : Type} (params : List String) (args : List α) :
    Except PyErr (List (String × α)) :=
  if args.length < params.length then
    .error (.typeError "missing required positional arguments")
  else if params.length < args.length then
    .error (.typeError "too many positional arguments")
  else .ok (params.zip args)

/-- The argument list `replay` passes when creating the fetch-data task
(src/tardis_client/tardis_client.py lines 64-67): seven positional
arguments. -/
def replay_fetch_task_args {α : Type}
    (exchange from_date to_date filters endpoint cache_dir api_key : α) : List α :=
  [exchange, from_date, to_date, filters, endpoint, cache_dir, api_key]

/-- The creation of the background fetch task inside `replay`: binding the
seven supplied arguments against the nine parameters of
`fetch_data_to_replay`.  In Python this binding happens when the coroutine
object is constructed, before `asyncio.create_task` runs it. -/
def replay_start_fetch_data_task {α : Type}
    (exchange from_date to_date filters endpoint cache_dir api_key : α) :
    Except PyErr (List (String × α)) :=
  bindPositional fetch_data_to_replay_params
    (replay_fetch_task_args exchange from_date to_date filters endpoint cache_dir api_key)

namespace Retry

/-- An exception raised by one attempt of `_fetch_and_cache_slice`, classified
the way `_reliably_fetch_and_cache_slice` inspects it: an
`urllib.error.HTTPError` carries its status code and whether its body text
contains the substring `ISO 8601 format`; a `RuntimeError`; or any other
`Exception`. -/
inductive FetchErr where
  | httpError (code : Nat) (msgHasIso8601Format : Bool)
  | runtimeError
  | otherError
  deriving Repr, DecidableEq

/-- The result of one attempt of `_fetch_and_cache_slice`: normal return,
`asyncio.CancelledError`, or an `Exception`. -/
inductive FetchResult where
  | success
  | cancelled
  | failure (e : FetchErr)
  deriving Repr, DecidableEq

/-- How `_reliably_fetch_and_cache_slice` finishes: a normal return (the
`break` after a successful fetch or after a caught `CancelledError`), a
re-raised exception, a propagated cancellation, or the sentinel `stuck`,
which marks fuel exhaustion of the model and is proved unreachable. -/
inductive Outcome where
  | returned
  | raised (e : FetchErr)
  | raisedCancelled
  | stuck
  deriving Repr, DecidableEq

/-- `MAX_ATTEMPTS` (src/tardis_client/data_downloader.py line 135). -/
def MAX_ATTEMPTS : Nat := 5

/-- Result of running the retry loop: how it finished, and how many attempts
(loop iterations incrementing `attempts`) it made. -/
structure RunResult where
  outcome : Outcome
  attempts : Nat
  deriving Repr, DecidableEq

/-- The `while True` retry loop of `_reliably_fetch_and_cache_slice`
(src/tardis_client/data_downloader.py lines 137-172).  `outcomes n` is what
the `n`-th (0-based) call of `_fetch_and_cache_slice` does.  Per iteration:
increment `attempts`; on success `break`; on `asyncio.CancelledError` `break`
(the handler on line 144 catches it and leaves the loop); on an `Exception`,
re-raise when `attempts == MAX_ATTEMPTS` or the exception is a
`RuntimeError`; re-raise an HTTPError whose code is 400 without the
`ISO 8601 format` substring, or 401; otherwise sleep (429 also calls
`ac.on_throttle()`; delays and jitter have no bearing on control flow) and
loop again.  The loop is modelled with explicit fuel; `MAX_ATTEMPTS` fuel is
proved sufficient. -/
def runAux (outcomes : Nat → FetchResult) : Nat → Nat → RunResult
  | attempts, 0 => ⟨.stuck, attempts⟩
  | attempts, fuel + 1 =>
    let attempts := attempts + 1
    match outcomes (attempts - 1) with
    | .success => ⟨.returned, attempts⟩
    | .cancelled => ⟨.returned, attempts⟩
    | .failure e =>
      if attempts == MAX_ATTEMPTS || e == .runtimeError then ⟨.raised e, attempts⟩
      else
        match e with
        | .httpError code msgHasIso =>
          if (code == 400 && !msgHasIso) || code == 401 then ⟨.raised e, attempts⟩
          else runAux outcomes attempts fuel
        | _ => runAux outcomes attempts fuel

/-- `_reliably_fetch_and_cache_slice` restricted to its retry control flow:
start with `attempts = 0` and enough fuel for `MAX_ATTEMPTS` iterations. -/
def run (outcomes : Nat → FetchResult) : RunResult :=
  runAux outcomes 0 MAX_ATTEMPTS

end Retry

namespace Adaptive

/-- `_AdaptiveConcurrency` (src/tardis_client/data_downloader.py lines
22-41): the adaptive concurrency limit with its floor, ceiling and the
time of the last applied throttle (`time()` modelled as a rational). -/
structure AC where
  limit : Nat
  minimum : Nat
  maximum : Nat
  last_throttle : ℚ
  deriving Repr, DecidableEq

/-- `_AdaptiveConcurrency.__init__(maximum, minimum=1)`. -/
def AC.init (maximum : Nat) (minimum : Nat) : AC :=
  ⟨maximum, minimum, maximum, 0⟩

/-- `on_success`: `self._limit = min(self._maximum, self._limit + 1)`. -/
def AC.on_success (s : AC) : AC :=
  { s with limit := min s.maximum (s.limit + 1) }

/-- `on_throttle`: ignore a throttle within 2 seconds of the last applied
one; otherwise record the time and set
`self._limit = max(self._minimum, self._limit * 7 // 10)`. -/
def AC.on_throttle (now : ℚ) (s : AC) : AC :=
  if now - s.last_throttle < 2 then s
  else { s with last_throttle := now, limit := max s.minimum (s.limit * 7 / 10) }

/-- An event observed by the limiter: a successful drain, or a 429 observed
at wall-clock time `now`. -/
inductive Event where
  | success
  | throttle (now : ℚ)

/-- Apply one event to the limiter state. -/
def AC.step (s : AC) : Event → AC
  | .success => s.on_success
  | .throttle now => s.on_throttle now

/-- The limiter state after a sequence of events, starting from
`_AdaptiveConcurrency(maximum=60)` as `fetch_data_to_replay` constructs it. -/
def runTrace (events : List Event) : AC :=
  events.foldl AC.step (AC.init 60 1)

end Adaptive

/-- The limiter invariant: floor 1, ceiling 60, and the limit within
`[1, 60]`. -/
def Adaptive.Inv (s : Adaptive.AC) : Prop :=
  s.minimum = 1 ∧ s.maximum = 60 ∧ 1 ≤ s.limit ∧ s.limit ≤ 60

/-- `datetime.strptime` with the fixed pattern `%Y-%m-%dT%H:%M:%S.%f`:
four-digit year, two-digit (zero-padded, as the API emits them) month, day,
hour, minute and second with the literal separators of the pattern, then a
fraction of 1-6 digits right-padded to microseconds, with calendar range
validation as in the `datetime` constructor. -/
def strptime_iso_micro (cs : List Char) : Option DateTime := do
  let (y, r1) ← parseDigitsAux 4 0 cs
  match r1 with
  | '-' :: r2 => do
    let (mo, r3) ← parseDigitsAux 2 0 r2
    (match r3 with
    | '-' :: r4 => do
      let (d, r5) ← parseDigitsAux 2 0 r4
      (match r5 with
      | 'T' :: r6 => do
        let (hh, r7) ← parseDigitsAux 2 0 r6
        (match r7 with
        | ':' :: r8 => do
          let (mi, r9) ← parseDigitsAux 2 0 r8
          (match r9 with
          | ':' :: r10 => do
            let (ss, r11) ← parseDigitsAux 2 0 r10
            (match r11 with
            | '.' :: r12 =>
              if r12.dropWhile Char.isDigit ≠ [] ∨ (r12.takeWhile Char.isDigit).length = 0 ∨
                  6 < (r12.takeWhile Char.isDigit).length then none
              else do
                let (fr, _) ← parseDigitsAux (r12.takeWhile Char.isDigit).length 0 r12
                if 1 ≤ mo ∧ mo ≤ 12 ∧ 1 ≤ d ∧ d ≤ daysInMonth y mo ∧ hh < 24 ∧ mi < 60 ∧ ss < 60 then
                  some ⟨y, mo, d, hh, mi, ss, fr * 10 ^ (6 - (r12.takeWhile Char.isDigit).length)⟩
                else none
            | _ => none)
          | _ => none)
        | _ => none)
      | _ => none)
    | _ => none)
  | _ => none

/-- `bytes.decode("utf-8")` restricted to ASCII content (the API timestamps
are ASCII); a byte outside ASCII is not given a multi-byte decoding here and
maps to a `UnicodeDecodeError`. -/
def asciiDecode (bs : List Nat) : Option (List Char) :=
  if bs.all (· < 128) then some (bs.map Char.ofNat) else none

/-- `DATE_MESSAGE_SPLIT_INDEX` (src/tardis_client/tardis_client.py line 22). -/
def DATE_MESSAGE_SPLIT_INDEX : Nat := 28

/-- The `Response` namedtuple yielded by `replay`
(src/tardis_client/tardis_client.py line 20): in decoded mode a parsed
timestamp and a parsed JSON message, in raw mode two byte slices. -/
inductive Response (J : Type) where
  | decoded (local_timestamp : DateTime) (message : J)
  | raw (local_timestamp : List Nat) (message : List Nat)
  deriving Repr, DecidableEq

/-- The per-line body of `replay`'s slice-reading loop
(src/tardis_client/tardis_client.py lines 99-122), for one line of a
decompressed slice (a list of bytes, trailing `\n` included).  Lines of
length ≤ 1 are skipped (`continue`, modelled as `none`).  In decoded mode the
timestamp is `line[0:DATE_MESSAGE_SPLIT_INDEX - 2]` decoded as UTF-8 and
parsed with `%Y-%m-%dT%H:%M:%S.%f`, and the message is
`line[DATE_MESSAGE_SPLIT_INDEX + 1:]` parsed by the caller-supplied `json`
module (a parameter of `replay`, modelled as `jsonLoads`); in raw mode the
two slices are yielded as they are.  Parser failures raise. -/
def processLine {J : Type} (jsonLoads : List Nat → Except PyErr J)
    (decode_response : Bool) (line : List Nat) : Except PyErr (Option (Response J)) :=
  if line.length ≤ 1 then .ok none
  else if decode_response then
    match asciiDecode (line.take (DATE_MESSAGE_SPLIT_INDEX - 2)) with
    | none => .error .unicodeDecodeError
    | some cs =>
      match strptime_iso_micro cs with
      | none => .error (.valueError "time data does not match format")
      | some timestamp =>
        (jsonLoads (line.drop (DATE_MESSAGE_SPLIT_INDEX + 1))).map
          (fun msg => some (.decoded timestamp msg))
  else
    .ok (some (.raw (line.take DATE_MESSAGE_SPLIT_INDEX)
      (line.drop (DATE_MESSAGE_SPLIT_INDEX + 1))))

namespace Bitmex

/-- `BOOK_UPDATE_TYPE` (src/tardis_client/reconstructors/market_reconstructor.py). -/
inductive BOOK_UPDATE_TYPE where
  | NEW
  | CHANGE
  | DELETE
  deriving Repr, DecidableEq

/-- `MESSAGE_TYPE` (src/tardis_client/reconstructors/market_reconstructor.py). -/
inductive MESSAGE_TYPE where
  | BOOK_DELTA
  | TRADES
  deriving Repr, DecidableEq

/-- A data item of a Bitmex message as the reconstructor reads it.  `symbol`,
`id`, `side`, `size` and `timestamp` are the keys the code subscripts
unconditionally on the paths exercised here; `price` is the one key whose
presence the code tests (`"price" in item`), so it is `none` when absent and
`some v` when present, where `v` itself may be Python `None` (JSON `null`).
Prices and sizes are modelled as rationals: the code stores and compares
them but never does arithmetic on them. -/
structure Item where
  symbol : String
  id : Int
  side : String
  size : ℚ
  price : Option (Option ℚ)
  timestamp : String
  deriving Repr, DecidableEq

/-- A decoded Bitmex message: `message["table"]`, `message["action"]`,
`message["data"]`. -/
structure Message where
  table : String
  action : String
  data : List Item
  deriving Repr, DecidableEq

/-- `Trade` (src/tardis_client/reconstructors/market_reconstructor.py). -/
structure Trade where
  symbol : String
  side : String
  amount : ℚ
  price : Option ℚ
  timestamp : DateTime
  deriving Repr, DecidableEq

/-- `BookUpdate` (src/tardis_client/reconstructors/market_reconstructor.py);
`price_level` is never Python `None` here because the reconstructor skips
items whose resolved price level is `None` before building a `BookUpdate`. -/
structure BookUpdate where
  symbol : String
  side : String
  update_type : BOOK_UPDATE_TYPE
  price_level : ℚ
  amount : ℚ
  deriving Repr, DecidableEq

/-- One symbol's order book `{ASK: SortedDict(), BID: SortedDict()}`; each
side is a price→amount map, modelled as an association list (the claims
below never inspect key order, so the sortedness of `SortedDict` iteration
is not modelled). -/
structure Book where
  asks : List (ℚ × ℚ)
  bids : List (ℚ × ℚ)
  deriving Repr, DecidableEq

/-- Read one side of a book by the `ASK`/`BID` string key
(src/tardis_client/consts.py: `ASK = "ask"`, `BID = "bid"`; these are the
only keys the books are built and accessed with). -/
def Book.getSide (b : Book) (side : String) : List (ℚ × ℚ) :=
  if side == "bid" then b.bids else b.asks

/-- Write one side of a book by the `ASK`/`BID` string key. -/
def Book.setSide (b : Book) (side : String) (entries : List (ℚ × ℚ)) : Book :=
  if side == "bid" then { b with bids := entries } else { b with asks := entries }

/-- Python dict assignment `m[k] = v` on an association list: replace the
binding of `k` if present, else append it. -/
def setKey {κ ν : Type} [BEq κ] (k : κ) (v : ν) : List (κ × ν) → List (κ × ν)
  | [] => [(k, v)]
  | (k0, v0) :: rest => if k0 == k then (k, v) :: rest else (k0, v0) :: setKey k v rest

/-- Python `del m[k]` on an association list: remove the binding of `k`, or
raise `KeyError` when there is none. -/
def delKey {κ ν : Type} [BEq κ] (k : κ) : List (κ × ν) → Except PyErr (List (κ × ν))
  | [] => .error .keyError
  | (k0, v0) :: rest =>
    if k0 == k then .ok rest
    else (delKey k rest).map (fun rest2 => (k0, v0) :: rest2)

/-- The mutable state of a `BitmexMarketReconstructor`: the requested
symbols, `self._id_to_price_map`, and `self._books` (with `self._books_views`
being live views of the same books, modelled by reading `books` where the
code reads a view). -/
structure RState where
  symbols : List String
  id_to_price_map : List (Int × Option ℚ)
  books : List (String × Book)
  deriving Repr, DecidableEq

/-- `MarketReconstructor.__init__` together with
`BitmexMarketReconstructor.__init__`: empty `id→price` map and an empty
two-sided book per requested symbol. -/
def initState (symbols : List String) : RState :=
  ⟨symbols, [], symbols.map (fun s => (s, ⟨[], []⟩))⟩

/-- `MarketResponse` (src/tardis_client/reconstructors/market_reconstructor.py).
The Python `message` list holds trades or book updates; the two item shapes
are injected into one sum type. -/
structure MarketResponse where
  local_timestamp : DateTime
  message_type : MESSAGE_TYPE
  message : List (Trade ⊕ BookUpdate)
  order_book_state : Book
  deriving Repr, DecidableEq

/-- `self._action_to_update_type_map[action]`
(src/tardis_client/reconstructors/bitmex.py lines 22-27): a dict lookup, so
an unknown action raises `KeyError`. -/
def actionToUpdateType : String → Except PyErr BOOK_UPDATE_TYPE
  | "partial" => .ok .NEW
  | "insert" => .ok .NEW
  | "delete" => .ok .DELETE
  | "update" => .ok .CHANGE
  | _ => .error .keyError

/-- `BitmexMarketReconstructor._map_trade`
(src/tardis_client/reconstructors/bitmex.py lines 84-91): `item["price"]`
raises `KeyError` when absent; `item["timestamp"][:-1]` is parsed with
`datetime.fromisoformat`, raising `ValueError` when unparseable. -/
def map_trade (item : Item) : Except PyErr Trade := do
  let price ← match item.price with
    | some v => pure v
    | none => Except.error .keyError
  let ts ← match fromisoformat (item.timestamp.dropRight 1) with
    | some d => pure d
    | none => Except.error (.valueError "Invalid isoformat string")
  pure ⟨item.symbol, if item.side == "Buy" then "buy" else "sell", item.size, price, ts⟩

/-- `BitmexMarketReconstructor._map_order_book_update`
(src/tardis_client/reconstructors/bitmex.py lines 93-97). -/
def map_order_book_update (item : Item) (price_level : ℚ)
    (update_type : BOOK_UPDATE_TYPE) : BookUpdate :=
  ⟨item.symbol, if item.side == "Buy" then "bid" else "ask", update_type, price_level,
   if update_type == .DELETE then 0 else item.size⟩

/-- `BitmexMarketReconstructor._apply_book_update_to_order_book`
(src/tardis_client/reconstructors/bitmex.py lines 99-105): look up the
symbol's book (`self._books[...]`, a dict subscript), then `del` the price
key for a DELETE (raising `KeyError` when the key is absent) or set it
otherwise. -/
def apply_book_update (books : List (String × Book)) (u : BookUpdate) :
    Except PyErr (List (String × Book)) := do
  let matching_book ← match books.lookup u.symbol with
    | some b => pure b
    | none => Except.error .keyError
  if u.update_type == .DELETE then
    (delKey u.price_level (matching_book.getSide u.side)).map
      (fun side2 => setKey u.symbol (matching_book.setSide u.side side2) books)
  else
    pure (setKey u.symbol
      (matching_book.setSide u.side
        (setKey u.price_level u.amount (matching_book.getSide u.side))) books)

/-- One iteration of the `for item in message["data"]` loop of
`BitmexMarketReconstructor.reconstruct`
(src/tardis_client/reconstructors/bitmex.py lines 47-76), threading the
reconstructor state and the accumulated `items` list.  An item whose symbol
is not requested is skipped.  On the trade path the mapped trade is
appended.  On the book path: for `partial`/`insert` actions
`self._id_to_price_map[item["id"]] = item["price"]` (subscripting `price`,
so its absence raises `KeyError`); then `price_level` is `item["price"]` if
the key is present, else `self._id_to_price_map[item["id"]]` — a dict
subscript that raises `KeyError` when the id is unknown; a `None` price
level is skipped; otherwise the update is mapped (looking up the action in
`_action_to_update_type_map`), appended, and applied to the book. -/
def processItem (is_trade : Bool) (action : String)
    (st : RState × List (Trade ⊕ BookUpdate)) (item : Item) :
    Except PyErr (RState × List (Trade ⊕ BookUpdate)) := do
  let (s, items) := st
  if !(s.symbols.contains item.symbol) then pure (s, items)
  else if is_trade then
    (map_trade item).map (fun t => (s, items ++ [Sum.inl t]))
  else do
    let s ←
      if action == "partial" || action == "insert" then
        match item.price with
        | none => Except.error .keyError
        | some v => pure { s with id_to_price_map := setKey item.id v s.id_to_price_map }
      else pure s
    let price_level_or_none ← match item.price with
      | some v => pure v
      | none =>
        match s.id_to_price_map.lookup item.id with
        | some v => pure v
        | none => Except.error .keyError
    match price_level_or_none with
    | none => pure (s, items)
    | some price_level => do
      let update_type ← actionToUpdateType action
      let book_update := map_order_book_update item price_level update_type
      let books2 ← apply_book_update s.books book_update
      pure ({ s with books := books2 }, items ++ [Sum.inr book_update])

/-- `BitmexMarketReconstructor.reconstruct`
(src/tardis_client/reconstructors/bitmex.py lines 32-81).  Messages that are
neither trades nor `orderBookL2` deltas, and trade partials, return `None`.
Otherwise the data items are folded through `processItem`; then the code
reads `items[0].symbol` unconditionally — an `IndexError` when every item
was skipped — and returns a `MarketResponse` whose `order_book_state` is the
view of that symbol's book (`self._books_views[symbol]`, modelled by reading
the same book). -/
def reconstruct (s : RState) (local_timestamp : DateTime) (message : Message) :
    Except PyErr (RState × Option MarketResponse) :=
  let is_trade := message.table == "trade"
  let is_order_book_delta := message.table == "orderBookL2"
  let is_partial := message.action == "partial"
  if is_trade == false && is_order_book_delta == false then .ok (s, none)
  else if is_trade && is_partial then .ok (s, none)
  else do
    let message_type := if is_trade then MESSAGE_TYPE.TRADES else MESSAGE_TYPE.BOOK_DELTA
    let (s2, items) ← message.data.foldlM (processItem is_trade message.action) (s, [])
    match items with
    | [] => Except.error .indexError
    | first :: _ =>
      let symbol := match first with
        | .inl t => t.symbol
        | .inr u => u.symbol
      let order_book_state ← match s2.books.lookup symbol with
        | some b => pure b
        | none => Except.error .keyError
      pure (s2, some ⟨local_timestamp, message_type, items, order_book_state⟩)

end Bitmex

/-- `get_slice_cache_path` (src/tardis_client/handy.py lines 7-8):
`os.path.join(cache_dir, "feeds", exchange, get_filters_hash(filters),
format_date_to_path(date)) + ".json.gz"`.  Exceptions escaping
`get_filters_hash` propagate. -/
def get_slice_cache_path (cache_dir exchange : String) (date : DateTime)
    (filters : Option (List Channel)) : Except PyErr String :=
  (get_filters_hash filters).map (fun filters_hash =>
    pathJoin [cache_dir, "feeds", exchange, filters_hash, format_date_to_path date]
      ++ ".json.gz")


/-- The 28 ASCII bytes of the sample API timestamp
`2019-08-01T08:52:00.0324272Z` (src/tardis_client/tardis_client.py comment,
line 106). -/
def c8_sample_ts : List Nat :=
  [50, 48, 49, 57, 45, 48, 56, 45, 48, 49, 84, 48, 56, 58, 53, 50, 58, 48, 48, 46,
   48, 51, 50, 52, 50, 55, 50, 90]

/-! ## Theorems about the claims -/

set_option maxRecDepth 100000 in
/-- C1: the claim says that for an absent or empty filter list,
`get_filters_hash` returns the lowercase hex SHA-256 digest of the canonical
serialization `[]`, i.e. `SHA256("[]")`.  The code instead returns the
hard-coded constant `07fdc31e...`, discarding the digest it computes, and
`SHA256("[]")` is in fact `4f53cda1...`: the two differ, so the returned
value is not the SHA-256 of the empty serialization. -/
theorem C1_empty_filters_hash_is_hardcoded_constant_not_sha256 :
    get_filters_hash none =
      Except.ok "07fdc31e2de738243f3c4980dc9b67b11e746eacc5f3da5818cc08b5cbc80ec2" ∧
    get_filters_hash (some []) =
      Except.ok "07fdc31e2de738243f3c4980dc9b67b11e746eacc5f3da5818cc08b5cbc80ec2" ∧
    SHA256.sha256hex (asciiBytes "[]") =
      "4f53cda18c2baa0c0354bb5f9a3ecbe5ed12ab4d8e11ba873c2f11161202b945" ∧
    SHA256.sha256hex (asciiBytes "[]") ≠
      "07fdc31e2de738243f3c4980dc9b67b11e746eacc5f3da5818cc08b5cbc80ec2" := by
  refine ⟨rfl, rfl, by decide, by decide⟩

/-- C2: the claim says `get_slice_cache_path` returns a path (does not raise)
for every filter list, empty or non-empty, and is permutation-invariant.  On
this code a non-empty list of `Channel` dataclass values makes
`json.dumps` inside `get_filters_hash` raise `TypeError`, so the call raises
instead of returning a path; the empty list does return the (constant-hash)
path. -/
theorem C2_slice_cache_path_raises_on_nonempty_filters :
    get_slice_cache_path "/tmp/.tardis-cache" "bitmex" ⟨2019, 10, 1, 0, 0, 0, 0⟩
        (some [Channel.make "trade" ["XBTUSD"]]) =
      Except.error (PyErr.typeError "Object of type Channel is not JSON serializable") ∧
    get_slice_cache_path "/tmp/.tardis-cache" "bitmex" ⟨2019, 10, 1, 0, 0, 0, 0⟩ (some []) =
      Except.ok
        "/tmp/.tardis-cache/feeds/bitmex/07fdc31e2de738243f3c4980dc9b67b11e746eacc5f3da5818cc08b5cbc80ec2/2019/10/01/00/00.json.gz" :=
  ⟨rfl, rfl⟩

/-- C3: the claim says `replay` starts the orchestrator supplying all nine of
its inputs and that this invocation does not raise.  The call site passes
seven positional arguments against the nine required parameters of
`fetch_data_to_replay` (omitting `http_timeout` and `http_proxy`), so Python
raises `TypeError` when the coroutine is constructed, before any fetching. -/
theorem C3_replay_fetch_task_call_is_missing_arguments :
    replay_start_fetch_data_task "bitmex" "2019-10-01" "2019-10-02" "filters"
        "https://api.tardis.dev" "/tmp/.tardis-cache" "" =
      Except.error (PyErr.typeError "missing required positional arguments") ∧
    fetch_data_to_replay_params.length = 9 ∧
    (replay_fetch_task_args "bitmex" "2019-10-01" "2019-10-02" "filters"
        "https://api.tardis.dev" "/tmp/.tardis-cache" "").length = 7 :=
  ⟨rfl, rfl, rfl⟩

/-- C4: the claim says an unknown venue makes `replay`'s validation raise.
`_validate_payload` contains no venue check: for a venue string outside
`EXCHANGES` and otherwise-valid arguments it returns normally. -/
theorem C4_validate_payload_accepts_unknown_venue :
    EXCHANGES.contains "no-such-venue" = false ∧
    validate_payload "no-such-venue" (some "2019-10-01") (some "2019-10-02") none =
      Except.ok () :=
  ⟨by decide, rfl⟩

/-- C6: the claim says a cancellation raised by the underlying fetch is
re-raised by the reliable wrapper.  The wrapper's `except
asyncio.CancelledError: break` catches it and leaves the loop, so the
wrapper makes no further attempts but returns normally: the outcome is
`returned`, not a propagated cancellation. -/
theorem C6_cancellation_is_swallowed_not_propagated :
    Retry.run (fun _ => Retry.FetchResult.cancelled) =
      { outcome := Retry.Outcome.returned, attempts := 1 } ∧
    (Retry.run (fun _ => Retry.FetchResult.cancelled)).outcome ≠
      Retry.Outcome.raisedCancelled :=
  ⟨rfl, by decide⟩

/-- C9: the claim says an `orderBookL2` update for a requested symbol with no
price field and an unknown id is silently dropped.  The code resolves the
price level with `self._id_to_price_map[item["id"]]`, a dict subscript, so
the unknown id raises `KeyError` instead of being skipped. -/
theorem C9_unknown_id_update_raises_keyerror :
    Bitmex.reconstruct (Bitmex.initState ["XBTUSD"]) ⟨2019, 8, 1, 0, 0, 0, 0⟩
        ⟨"orderBookL2", "update", [⟨"XBTUSD", 123, "Buy", 10, none, ""⟩]⟩ =
      Except.error PyErr.keyError :=
  rfl


/-- One loop iteration whose attempt fails with a non-retried HTTP error
(400 without the `ISO 8601 format` substring, or 401) before the attempt
budget is reached re-raises that error immediately. -/
theorem Retry.runAux_fatal (outcomes : Nat → Retry.FetchResult) (attempts fuel : Nat)
    (code : Nat) (iso : Bool)
    (h0 : outcomes attempts = Retry.FetchResult.failure (Retry.FetchErr.httpError code iso))
    (hne : attempts + 1 ≠ Retry.MAX_ATTEMPTS)
    (hfatal : ((code == 400 && !iso) || code == 401) = true) :
    Retry.runAux outcomes attempts (fuel + 1) =
      ⟨Retry.Outcome.raised (Retry.FetchErr.httpError code iso), attempts + 1⟩ := by
  have h1 : (attempts + 1 == Retry.MAX_ATTEMPTS) = false := by
    simpa using hne
  simp [Retry.runAux, Nat.add_sub_cancel, h0, h1, hfatal]

/-- Fuel `MAX_ATTEMPTS` is enough for the retry loop: starting from any
attempt count with matching fuel, the loop never hits the fuel sentinel and
finishes within 5 attempts. -/
theorem Retry.runAux_bound (outcomes : Nat → Retry.FetchResult) :
    ∀ fuel attempts, attempts + fuel = Retry.MAX_ATTEMPTS → 0 < fuel →
      (Retry.runAux outcomes attempts fuel).attempts ≤ 5 ∧
      (Retry.runAux outcomes attempts fuel).outcome ≠ Retry.Outcome.stuck := by
  intro fuel
  induction fuel with
  | zero => intro attempts _ h0; omega
  | succ f ih =>
    intro attempts hsum _
    have hsum5 : attempts + (f + 1) = 5 := hsum
    rcases houtcome : outcomes attempts with _ | _ | e
    · simp only [Retry.runAux, Nat.add_sub_cancel, houtcome]
      exact ⟨by omega, by simp⟩
    · simp only [Retry.runAux, Nat.add_sub_cancel, houtcome]
      exact ⟨by omega, by simp⟩
    · simp only [Retry.runAux, Nat.add_sub_cancel, houtcome, Retry.MAX_ATTEMPTS]
      rcases e with ⟨code, iso⟩ | _ | _
      · have hrt : (Retry.FetchErr.httpError code iso == Retry.FetchErr.runtimeError) = false :=
          rfl
        simp only [hrt, Bool.or_false]
        split
        · exact ⟨by show attempts + 1 ≤ 5; omega, by simp⟩
        · rename_i hne
          have hne5 : attempts + 1 ≠ 5 := by simpa using hne
          split
          · exact ⟨by show attempts + 1 ≤ 5; omega, by simp⟩
          · exact ih (attempts + 1)
              (by simp only [Retry.MAX_ATTEMPTS] at hsum5 ⊢; omega) (by omega)
      · rw [if_pos (by simp)]
        exact ⟨by show attempts + 1 ≤ 5; omega, by simp⟩
      · have hrt : (Retry.FetchErr.otherError == Retry.FetchErr.runtimeError) = false := rfl
        simp only [hrt, Bool.or_false]
        split
        · exact ⟨by show attempts + 1 ≤ 5; omega, by simp⟩
        · rename_i hne
          have hne5 : attempts + 1 ≠ 5 := by simpa using hne
          exact ih (attempts + 1)
            (by simp only [Retry.MAX_ATTEMPTS] at hsum5 ⊢; omega) (by omega)

/-- C5: the reliable fetch wrapper makes at most 5 attempts (its fuel-driven
model genuinely finishes, never hitting the sentinel); and if the first
attempt fails with HTTP 401, or with HTTP 400 whose body lacks the
`ISO 8601 format` substring, the wrapper re-raises that error after exactly
one attempt, with no retry. -/
theorem C5_retry_bound_and_fatal_first_attempt (outcomes : Nat → Retry.FetchResult) :
    ((Retry.run outcomes).attempts ≤ 5 ∧
      (Retry.run outcomes).outcome ≠ Retry.Outcome.stuck) ∧
    ∀ code iso, outcomes 0 = Retry.FetchResult.failure (Retry.FetchErr.httpError code iso) →
      code = 401 ∨ (code = 400 ∧ iso = false) →
      Retry.run outcomes =
        ⟨Retry.Outcome.raised (Retry.FetchErr.httpError code iso), 1⟩ := by
  constructor
  · exact Retry.runAux_bound outcomes Retry.MAX_ATTEMPTS 0 rfl (by decide)
  · intro code iso h0 hfatal
    have hf : ((code == 400 && !iso) || code == 401) = true := by
      rcases hfatal with h | ⟨h1, h2⟩ <;> subst_vars <;> simp
    exact Retry.runAux_fatal outcomes 0 4 code iso h0 (by decide) hf

/-- Witness for C5 at a concrete run whose first attempt fails with
HTTP 401. -/
theorem C5_witness :
    ((Retry.run (fun _ => Retry.FetchResult.failure (Retry.FetchErr.httpError 401 false))).attempts ≤ 5 ∧
      (Retry.run (fun _ => Retry.FetchResult.failure (Retry.FetchErr.httpError 401 false))).outcome ≠
        Retry.Outcome.stuck) ∧
    Retry.run (fun _ => Retry.FetchResult.failure (Retry.FetchErr.httpError 401 false)) =
      ⟨Retry.Outcome.raised (Retry.FetchErr.httpError 401 false), 1⟩ :=
  ⟨(C5_retry_bound_and_fatal_first_attempt _).1,
   (C5_retry_bound_and_fatal_first_attempt _).2 401 false rfl (Or.inl rfl)⟩

/-- Each limiter event preserves the invariant. -/
theorem Adaptive.step_inv {s : Adaptive.AC} (hs : Adaptive.Inv s) (e : Adaptive.Event) :
    Adaptive.Inv (s.step e) := by
  obtain ⟨hmin, hmax, h1, h60⟩ := hs
  cases e with
  | success =>
    simp only [Adaptive.Inv, Adaptive.AC.step, Adaptive.AC.on_success]
    refine ⟨hmin, hmax, ?_, ?_⟩
    · show 1 ≤ min s.maximum (s.limit + 1)
      rw [hmax]; omega
    · show min s.maximum (s.limit + 1) ≤ 60
      rw [hmax]; omega
  | throttle now =>
    simp only [Adaptive.Inv, Adaptive.AC.step, Adaptive.AC.on_throttle]
    split
    · exact ⟨hmin, hmax, h1, h60⟩
    · refine ⟨hmin, hmax, ?_, ?_⟩
      · show 1 ≤ max s.minimum (s.limit * 7 / 10)
        rw [hmin]; omega
      · show max s.minimum (s.limit * 7 / 10) ≤ 60
        rw [hmin]; omega

/-- The invariant holds along any fold of limiter events. -/
theorem Adaptive.foldl_inv : ∀ (events : List Adaptive.Event) (s : Adaptive.AC),
    Adaptive.Inv s → Adaptive.Inv (events.foldl Adaptive.AC.step s)
  | [], _, hs => hs
  | e :: rest, s, hs => Adaptive.foldl_inv rest (s.step e) (Adaptive.step_inv hs e)

/-- The limiter state reached after any event trace satisfies the
invariant. -/
theorem Adaptive.runTrace_inv (events : List Adaptive.Event) :
    Adaptive.Inv (Adaptive.runTrace events) :=
  Adaptive.foldl_inv events (Adaptive.AC.init 60 1) ⟨rfl, rfl, by decide, by decide⟩

/-- C7: the adaptive concurrency limit starts at 60 and stays in `[1, 60]`
along every event trace; a success event sets it to `min 60 (limit + 1)`; a
throttle event at least 2 seconds after the previous applied throttle sets
it to `max 1 (limit * 7 / 10)`; a throttle event within 2 seconds of the
previous applied throttle leaves the state unchanged. -/
theorem C7_adaptive_limit_invariant_and_steps (events : List Adaptive.Event) :
    (Adaptive.AC.init 60 1).limit = 60 ∧
    (1 ≤ (Adaptive.runTrace events).limit ∧ (Adaptive.runTrace events).limit ≤ 60) ∧
    ((Adaptive.runTrace events).on_success).limit =
      min 60 ((Adaptive.runTrace events).limit + 1) ∧
    (∀ now : ℚ, 2 ≤ now - (Adaptive.runTrace events).last_throttle →
      ((Adaptive.runTrace events).on_throttle now).limit =
        max 1 ((Adaptive.runTrace events).limit * 7 / 10)) ∧
    (∀ now : ℚ, now - (Adaptive.runTrace events).last_throttle < 2 →
      (Adaptive.runTrace events).on_throttle now = Adaptive.runTrace events) := by
  obtain ⟨hmin, hmax, h1, h60⟩ := Adaptive.runTrace_inv events
  refine ⟨rfl, ⟨h1, h60⟩, ?_, ?_, ?_⟩
  · simp only [Adaptive.AC.on_success, hmax]
  · intro now hnow
    simp only [Adaptive.AC.on_throttle]
    rw [if_neg (by linarith), hmin]
  · intro now hnow
    simp only [Adaptive.AC.on_throttle]
    rw [if_pos hnow]

/-- Witness for C7 at the empty trace with concrete throttle times 5 (at
least 2 seconds after the initial `last_throttle = 0`) and 1 (within 2
seconds of it). -/
theorem C7_witness :
    (Adaptive.AC.init 60 1).limit = 60 ∧
    (1 ≤ (Adaptive.runTrace []).limit ∧ (Adaptive.runTrace []).limit ≤ 60) ∧
    ((Adaptive.runTrace []).on_success).limit = min 60 ((Adaptive.runTrace []).limit + 1) ∧
    ((Adaptive.runTrace []).on_throttle 5).limit =
      max 1 ((Adaptive.runTrace []).limit * 7 / 10) ∧
    (Adaptive.runTrace []).on_throttle 1 = Adaptive.runTrace [] := by
  have h := C7_adaptive_limit_invariant_and_steps []
  exact ⟨h.1, h.2.1, h.2.2.1,
    h.2.2.2.1 5 (by norm_num [Adaptive.runTrace, Adaptive.AC.init]),
    h.2.2.2.2 1 (by norm_num [Adaptive.runTrace, Adaptive.AC.init])⟩

/-- `pure` for `Except` is `Except.ok`. -/
theorem Except.pure_eq_ok {ε α : Type} (a : α) : (pure a : Except ε α) = Except.ok a := rfl

/-- `Except` bind on a success value applies the continuation. -/
theorem Except.bind_ok_eq {ε α β : Type} (a : α) (f : α → Except ε β) :
    (Except.ok a : Except ε α) >>= f = f a := rfl

/-- `Except` bind on an error propagates the error. -/
theorem Except.bind_error_eq {ε α β : Type} (e : ε) (f : α → Except ε β) :
    (Except.error e : Except ε α) >>= f = Except.error e := rfl

/-- C8: for a slice record line `<28-byte timestamp><1-byte separator><payload>`
(so of length > 1), raw mode yields exactly the byte slices `[0, 28)` and
`[29, end)`, i.e. the timestamp bytes and the payload bytes; decoded mode
yields the `Response` built from the timestamp parsed from bytes `[0, 26)`
with the pattern `%Y-%m-%dT%H:%M:%S.%f` and the payload parsed as JSON from
byte 29 onward; and lines of length ≤ 1 yield nothing. -/
theorem C8_record_byte_spans {J : Type} (jsonLoads : List Nat → Except PyErr J)
    (ts : List Nat) (sep : Nat) (body : List Nat) (hts : ts.length = 28) :
    processLine jsonLoads false (ts ++ sep :: body) =
      Except.ok (some (Response.raw ts body)) ∧
    processLine jsonLoads true (ts ++ sep :: body) =
      (match asciiDecode (ts.take 26) with
       | none => Except.error PyErr.unicodeDecodeError
       | some cs =>
         match strptime_iso_micro cs with
         | none => Except.error (PyErr.valueError "time data does not match format")
         | some timestamp =>
           (jsonLoads body).map (fun msg => some (Response.decoded timestamp msg))) ∧
    ∀ (decode : Bool) (line : List Nat), line.length ≤ 1 →
      processLine jsonLoads decode line = Except.ok none := by
  have hlen : ¬((ts ++ sep :: body).length ≤ 1) := by
    simp [hts]
    omega
  have hts28 : ts.take 28 = ts := by
    rw [← hts]
    exact List.take_length ts
  have htake26 : (ts ++ sep :: body).take 26 = ts.take 26 := by
    rw [List.take_append_eq_append_take]
    simp [hts]
  have htake28 : (ts ++ sep :: body).take 28 = ts := by
    rw [List.take_append_eq_append_take]
    simp [hts, hts28]
  have hdrop29 : (ts ++ sep :: body).drop 29 = body := by
    rw [List.drop_append_eq_append_drop]
    have h1 : ts.drop 29 = [] := List.drop_eq_nil_of_le (by rw [hts]; norm_num)
    simp [hts, h1]
  refine ⟨?_, ?_, ?_⟩
  · simp only [processLine, DATE_MESSAGE_SPLIT_INDEX, if_neg hlen]
    norm_num [htake28, hdrop29]
  · simp only [processLine, DATE_MESSAGE_SPLIT_INDEX, if_neg hlen, if_pos rfl]
    norm_num [htake26, hdrop29]
  · intro decode line hline
    simp only [processLine, if_pos hline]

/-- Witness for C8 at a concrete record: the sample timestamp, a space
separator, and the three payload bytes `{`, `}`, `\n`, with the identity
byte-level JSON reader; and the empty line `[\n]`. -/
theorem C8_witness :
    processLine (fun bs => Except.ok bs) false (c8_sample_ts ++ 32 :: [123, 125, 10]) =
      Except.ok (some (Response.raw c8_sample_ts [123, 125, 10])) ∧
    processLine (fun bs => Except.ok bs) true (c8_sample_ts ++ 32 :: [123, 125, 10]) =
      Except.ok (some (Response.decoded ⟨2019, 8, 1, 8, 52, 0, 32427⟩ [123, 125, 10])) ∧
    processLine (fun bs => Except.ok bs) true [10] = Except.ok none := by
  have h := C8_record_byte_spans (fun bs => Except.ok bs) c8_sample_ts 32 [123, 125, 10] rfl
  refine ⟨h.1, ?_, h.2.2 true [10] (by decide)⟩
  rw [h.2.1]
  rfl

/-- A fold of the item loop over items none of whose symbols is requested
changes nothing: every item is skipped at the symbol check. -/
theorem Bitmex.foldlM_skip_all (is_trade : Bool) (action : String) :
    ∀ (data : List Bitmex.Item) (s : Bitmex.RState)
      (items : List (Bitmex.Trade ⊕ Bitmex.BookUpdate)),
      (∀ item ∈ data, s.symbols.contains item.symbol = false) →
      List.foldlM (Bitmex.processItem is_trade action) (s, items) data =
        Except.ok (s, items)
  | [], _, _, _ => rfl
  | it :: rest, s, items, hall => by
    have h1 : s.symbols.contains it.symbol = false := hall it (by simp)
    have h2 : ¬(it.symbol ∈ s.symbols) := by simpa using h1
    have hrest := Bitmex.foldlM_skip_all is_trade action rest s items
      (fun i hi => hall i (by simp [hi]))
    simp [List.foldlM_cons, Bitmex.processItem, h1, h2, hrest]

/-- C10: a non-ignored message (a non-partial `trade`, or any `orderBookL2`
message) none of whose data items carries a requested symbol drives
`reconstruct` into `items[0]` on an empty list, raising `IndexError` rather
than returning `None` or a `MarketResponse`; and every `MarketResponse` that
`reconstruct` does return carries at least one item. -/
theorem C10_all_items_skipped_indexerror_and_responses_nonempty
    (s : Bitmex.RState) (lt : DateTime) (msg : Bitmex.Message) :
    (((msg.table = "trade" ∧ msg.action ≠ "partial") ∨ msg.table = "orderBookL2") →
      (∀ item ∈ msg.data, s.symbols.contains item.symbol = false) →
      Bitmex.reconstruct s lt msg = Except.error PyErr.indexError) ∧
    ∀ s2 resp, Bitmex.reconstruct s lt msg = Except.ok (s2, some resp) →
      resp.message ≠ [] := by
  constructor
  · intro hni hall
    rcases hni with ⟨htr, hpa⟩ | hob
    · have hfold := Bitmex.foldlM_skip_all true msg.action msg.data s [] hall
      have hp : (msg.action == "partial") = false := beq_eq_false_iff_ne.mpr hpa
      simp [Bitmex.reconstruct, htr, hp, hfold, Except.bind_ok_eq]
    · have hfold := Bitmex.foldlM_skip_all false msg.action msg.data s [] hall
      have ht : (msg.table == "trade") = false := by
        rw [hob]; rfl
      simp [Bitmex.reconstruct, hob, ht, hfold, Except.bind_ok_eq]
  · intro s2 resp h
    simp only [Bitmex.reconstruct] at h
    split at h
    · simp at h
    · split at h
      · simp at h
      · cases hf : List.foldlM (Bitmex.processItem (msg.table == "trade") msg.action)
          (s, []) msg.data with
        | error e =>
          rw [hf, Except.bind_error_eq] at h
          simp at h
        | ok pair =>
          obtain ⟨s3, items⟩ := pair
          rw [hf, Except.bind_ok_eq] at h
          cases items with
          | nil => simp at h
          | cons first rest =>
            rcases first with t | u
            · cases hlook : s3.books.lookup t.symbol with
              | none =>
                simp only [hlook] at h
                simp at h
              | some b =>
                simp only [hlook, Except.bind_ok_eq, Except.pure_eq_ok, Except.ok.injEq,
                  Prod.mk.injEq, Option.some.injEq] at h
                rw [← h.2]
                simp
            · cases hlook : s3.books.lookup u.symbol with
              | none =>
                simp only [hlook] at h
                simp at h
              | some b =>
                simp only [hlook, Except.bind_ok_eq, Except.pure_eq_ok, Except.ok.injEq,
                  Prod.mk.injEq, Option.some.injEq] at h
                rw [← h.2]
                simp

/-- Witness for C10: a requested-symbol set `{XBTUSD}`; an `orderBookL2`
update whose single item is for `ETHUSD` raises `IndexError`; and the
`MarketResponse` returned for an `orderBookL2` insert of `XBTUSD` at price
100 and size 10 has a non-empty message list. -/
theorem C10_witness :
    Bitmex.reconstruct (Bitmex.initState ["XBTUSD"]) ⟨2019, 8, 1, 0, 0, 0, 0⟩
        ⟨"orderBookL2", "update", [⟨"ETHUSD", 5, "Sell", 1, none, ""⟩]⟩ =
      Except.error PyErr.indexError ∧
    (⟨⟨2019, 8, 1, 0, 0, 0, 0⟩, Bitmex.MESSAGE_TYPE.BOOK_DELTA,
        [Sum.inr ⟨"XBTUSD", "bid", Bitmex.BOOK_UPDATE_TYPE.NEW, 100, 10⟩],
        ⟨[], [(100, 10)]⟩⟩ : Bitmex.MarketResponse).message ≠ [] := by
  constructor
  · exact (C10_all_items_skipped_indexerror_and_responses_nonempty
      (Bitmex.initState ["XBTUSD"]) ⟨2019, 8, 1, 0, 0, 0, 0⟩
      ⟨"orderBookL2", "update", [⟨"ETHUSD", 5, "Sell", 1, none, ""⟩]⟩).1
      (Or.inr rfl)
      (by intro item hi; simp at hi; subst hi; rfl)
  · exact (C10_all_items_skipped_indexerror_and_responses_nonempty
      (Bitmex.initState ["XBTUSD"]) ⟨2019, 8, 1, 0, 0, 0, 0⟩
      ⟨"orderBookL2", "insert", [⟨"XBTUSD", 1, "Buy", 10, some (some 100), ""⟩]⟩).2
      ⟨["XBTUSD"], [(1, some 100)], [("XBTUSD", ⟨[], [(100, 10)]⟩)]⟩
      ⟨⟨2019, 8, 1, 0, 0, 0, 0⟩, Bitmex.MESSAGE_TYPE.BOOK_DELTA,
        [Sum.inr ⟨"XBTUSD", "bid", Bitmex.BOOK_UPDATE_TYPE.NEW, 100, 10⟩],
        ⟨[], [(100, 10)]⟩⟩
      (by rfl)
